import Mathlib

/-!
Verification development for the TANI image generation and editing studio.

The repository consists of an Express backend (src/server.js) that proxies
generation and edit requests to an external generative-image model, a thin
browser transport layer (src/services/geminiService.ts), and a React client
(src/unnamed/part_000) holding the canvas-based mask authoring engine and the
UI state updates.  Each definition below is a shallow embedding of one piece
of that code; the doc comment of each definition names the source location it
embeds.
-/

namespace TANI

/-- Helper string membership test modelling the JavaScript expression
`a.includes(b)` and `String.prototype.startsWith`: Boolean prefix test on
character lists. -/
def charListPre : List Char → List Char → Bool
  | [], _ => true
  | _ :: _, [] => false
  | a :: as, b :: bs => a == b && charListPre as bs

/-- Boolean infix test on character lists: true when the pattern occurs
contiguously somewhere in the list. -/
def charListInf (pat : List Char) : List Char → Bool
  | [] => charListPre pat []
  | c :: cs => charListPre pat (c :: cs) || charListInf pat cs

/-- Models the JavaScript test `s.includes(pat)`. -/
def strIncludes (s pat : String) : Bool := charListInf pat.data s.data

/-- Models the JavaScript test `s.startsWith(pat)`. -/
def strStarts (s pat : String) : Bool := charListPre pat.data s.data

/-- Models JavaScript truthiness of an optional string value: `undefined`
and the empty string are falsy, every other string is truthy. -/
def jsTruthy : Option String → Bool
  | none => false
  | some s => s != ""

/-- One part of the multi-part content payload the backend sends to the
external model (src/server.js, lines 87-98): either an inline-data part
carrying base64 data with a MIME type, or a text part. -/
inductive Part where
  | inlineData (data : String) (mimeType : String)
  | text (content : String)
  deriving DecidableEq, Repr

/-- The fixed English prefix of the synthesized mask instruction in
src/server.js line 95, up to the opening quote around the user prompt. -/
def maskInstrPre : String :=
  "Using the provided black and white mask image, apply the following edit only to the BLACK areas of the original image, leaving the white areas unchanged: \""

/-- The synthesized instruction of src/server.js line 95: the fixed prefix,
then the user prompt verbatim, then a closing quote. -/
def maskedEditInstruction (prompt : String) : String :=
  maskInstrPre ++ prompt ++ "\""

/-- Embeds the payload construction of the edit endpoint, src/server.js
lines 87-98: the parts list starts with the inline image part; when the
mask datum is truthy a mask part re-tagged as image/png and the synthesized
mask instruction are appended, otherwise the bare prompt text is appended. -/
def buildEditParts (prompt img mime : String) (mask : Option String) : List Part :=
  match mask with
  | some m =>
      if m != "" then
        [Part.inlineData img mime,
         Part.inlineData m "image/png",
         Part.text (maskedEditInstruction prompt)]
      else
        [Part.inlineData img mime, Part.text prompt]
  | none => [Part.inlineData img mime, Part.text prompt]

/-- Embeds `handleApiErrorResponse` of src/server.js lines 26-44: classifies
a thrown error message into an HTTP status code and response message.  The
checks happen in source order: API-key marker, then the 429 marker, then the
generation-failed prefix, else the generic 500. -/
def handleApiErrorResponse (errMsg : String) : Nat × String :=
  if strIncludes errMsg "API key not valid" then
    (401, "The provided API key is not valid.")
  else if strIncludes errMsg "429" then
    (429, "API rate limit exceeded. Please try again later.")
  else if strStarts errMsg "Image generation failed:" then
    (400, errMsg)
  else
    (500, "Failed to process request due to an API error.")

/-- One content part of the external model response as inspected by
src/server.js line 109: an optional inline-data payload and an optional
text payload. -/
structure RespPart where
  inlineData : Option String
  text : Option String
  deriving DecidableEq

/-- Embeds the optional chain `response.candidates?.[0]?.content?.parts?.find
(part => part.inlineData?.data)?.inlineData?.data` of src/server.js
lines 109-111: the inline data of the first part whose inline data is truthy. -/
def imagePartData (parts : List RespPart) : Option String :=
  (parts.find? (fun p => jsTruthy p.inlineData)).bind RespPart.inlineData

/-- Outcome of the edit endpoint: a JSON success body carrying the image, or
an HTTP error status with an error message. -/
inductive EditOutcome where
  | ok (imageBase64 : String)
  | err (status : Nat) (message : String)
  deriving DecidableEq, Repr

/-- Embeds the response interpretation of the edit endpoint, src/server.js
lines 109-124: if a truthy inline image payload is found it is returned;
otherwise, if the SDK-level text accessor (`response.text`, modelled here as
the second argument) is truthy, an error prefixed `Image generation failed:`
is thrown and routed through `handleApiErrorResponse`; otherwise the
no-image-data error is thrown and routed the same way. -/
def editEndpointRespond (parts : List RespPart) (respText : Option String) : EditOutcome :=
  if jsTruthy (imagePartData parts) then
    EditOutcome.ok ((imagePartData parts).getD "")
  else if jsTruthy respText then
    let sm := handleApiErrorResponse ("Image generation failed: " ++ respText.getD "")
    EditOutcome.err sm.1 sm.2
  else
    let sm := handleApiErrorResponse "No image data was received from the API."
    EditOutcome.err sm.1 sm.2

/-- The request body object built by `editImage` in
src/services/geminiService.ts lines 45-52, before JSON serialization. -/
structure EditRequestBody where
  prompt : String
  imageBase64Data : String
  mimeType : String
  maskBase64Data : Option String
  deriving DecidableEq

/-- Embeds the body construction of `editImage`,
src/services/geminiService.ts lines 46-51. -/
def editImageBody (prompt img mime : String) (mask : Option String) : EditRequestBody :=
  { prompt := prompt, imageBase64Data := img, mimeType := mime, maskBase64Data := mask }

/-- Models `JSON.stringify` applied to the edit request body: the key-value
fields actually serialized.  A property whose value is `undefined` (here:
`none`) is omitted entirely by `JSON.stringify`, so the mask key appears only
when the option is present. -/
def serializedFields (b : EditRequestBody) : List (String × String) :=
  [("prompt", b.prompt),
   ("imageBase64Data", b.imageBase64Data),
   ("mimeType", b.mimeType)] ++
  (match b.maskBase64Data with
   | some m => [("maskBase64Data", m)]
   | none => [])

/-- A straight-alpha pixel of the canvas raster.  Channels range over
0..255; the mask engine only ever writes the fully transparent word or the
fully opaque stroke color. -/
structure Pixel where
  r : Nat
  g : Nat
  b : Nat
  a : Nat
  deriving DecidableEq, Repr

/-- The fully transparent pixel a cleared canvas holds. -/
def transparentPx : Pixel := { r := 0, g := 0, b := 0, a := 0 }

/-- The opaque black stroke pixel written by `draw`
(src/unnamed/part_000 lines 172-173: `rgba(0, 0, 0, 1)`). -/
def opaqueBlack : Pixel := { r := 0, g := 0, b := 0, a := 255 }

/-- The opaque white background pixel of the export composite
(src/unnamed/part_000 lines 225-226). -/
def whitePx : Pixel := { r := 255, g := 255, b := 255, a := 255 }

/-- The packed 32-bit word of a pixel as read through the `Uint32Array` view
in `getMaskAsBase64` (src/unnamed/part_000 line 212).  The actual byte order
is platform-endian, but the word is zero exactly when all four channels are
zero, which is the only property the code consults. -/
def pixelWord (p : Pixel) : Nat :=
  p.r + 256 * (p.g + 256 * (p.b + 256 * p.a))

/-- The drawing canvas of the mask engine: its backing raster dimensions
(set to the uploaded image's natural dimensions in src/unnamed/part_000
lines 129-130) and its pixel buffer in row-major order. -/
structure MaskCanvas where
  width : Nat
  height : Nat
  buffer : List Pixel
  deriving DecidableEq

/-- Canvas allocation on image load (src/unnamed/part_000 lines 129-134):
the raster matches the natural dimensions and every pixel starts fully
transparent. -/
def initCanvas (w h : Nat) : MaskCanvas :=
  { width := w, height := h, buffer := List.replicate (w * h) transparentPx }

/-- Embeds `clearMask` (src/unnamed/part_000 lines 197-203): `clearRect`
over the whole canvas resets every pixel to fully transparent and leaves the
dimensions unchanged. -/
def clearMask (c : MaskCanvas) : MaskCanvas :=
  { c with buffer := c.buffer.map (fun _ => transparentPx) }

/-- Embeds one `draw` call (src/unnamed/part_000 lines 166-190).  The stroke
style and fill style are the fully opaque black `rgba(0, 0, 0, 1)`; the
rasterizer of the round-capped segment plus the filled circle determines
which buffer indices are covered, and every covered pixel is written with
the opaque stroke color.  The covered index set is the `cover` argument
(rasterization itself is the browser's, not code of this repository);
writes outside the buffer are dropped, as the canvas clips them. -/
def draw (c : MaskCanvas) (cover : List Nat) : MaskCanvas :=
  { c with buffer := cover.foldl (fun b i => b.set i opaqueBlack) c.buffer }

/-- One user action on the mask layer: a `draw` step with its covered pixel
indices, or the clear-mask button. -/
inductive MaskOp where
  | draw (cover : List Nat)
  | clear
  deriving DecidableEq

/-- Applies one mask-layer action. -/
def applyOp (c : MaskCanvas) : MaskOp → MaskCanvas
  | MaskOp.draw cover => draw c cover
  | MaskOp.clear => clearMask c

/-- Applies a sequence of mask-layer actions in order. -/
def applyOps (c : MaskCanvas) (ops : List MaskOp) : MaskCanvas :=
  ops.foldl applyOp c

/-- Invariant of the mask layer: every pixel is either fully transparent or
the opaque stroke color.  It holds initially and is preserved by every mask
operation, since strokes only write the opaque color and clear only writes
the transparent one. -/
def binaryBuf (c : MaskCanvas) : Prop :=
  ∀ p ∈ c.buffer, p = transparentPx ∨ p = opaqueBlack

/-- Embeds the emptiness probe of `getMaskAsBase64` (src/unnamed/part_000
lines 212-213): the canvas is empty when no 32-bit pixel word differs from
zero. -/
def isCanvasEmpty (c : MaskCanvas) : Bool :=
  !(c.buffer.any (fun p => pixelWord p != 0))

/-- The canvas source-over compositing operator on straight-alpha pixels,
as performed by `tempCtx.drawImage(canvas, 0, 0)` over the white fill
(src/unnamed/part_000 lines 225-229).  This models the standard
Porter-Duff over operator of the 2D canvas; it is external browser
behaviour, embedded here because the export composite is defined by it. -/
def sourceOver (src dst : Pixel) : Pixel :=
  let ao := src.a * 255 + dst.a * (255 - src.a)
  if ao = 0 then transparentPx
  else
    { r := (src.r * src.a * 255 + dst.r * dst.a * (255 - src.a)) / ao,
      g := (src.g * src.a * 255 + dst.g * dst.a * (255 - src.a)) / ao,
      b := (src.b * src.a * 255 + dst.b * dst.a * (255 - src.a)) / ao,
      a := ao / 255 }

/-- The composite raster `getMaskAsBase64` hands to `toDataURL`: its
dimensions and its pixels.  The PNG and base64 encoding applied afterwards
(src/unnamed/part_000 line 231) is external library behaviour and is not
modelled beyond this raster. -/
structure MaskExport where
  width : Nat
  height : Nat
  pixels : List Pixel
  deriving DecidableEq

/-- Embeds `getMaskAsBase64` (src/unnamed/part_000 lines 205-232): when
every pixel word is zero the export is absent (`null`); otherwise a
temporary canvas of identical dimensions is filled opaque white and the
mask layer is composited onto it with source-over. -/
def getMaskAsBase64 (c : MaskCanvas) : Option MaskExport :=
  if isCanvasEmpty c then none
  else
    some { width := c.width, height := c.height,
           pixels := c.buffer.map (fun p => sourceOver p whitePx) }

/-- The bounding client rectangle of the displayed canvas element, in CSS
display coordinates. -/
structure DomRect where
  left : ℚ
  top : ℚ
  width : ℚ
  height : ℚ

/-- Embeds `getCanvasCoords` (src/unnamed/part_000 lines 142-157): the
client point is translated by the rectangle origin and scaled per axis by
the ratio of the backing raster size to the displayed size. -/
def getCanvasCoords (canvasW canvasH : ℚ) (r : DomRect) (clientX clientY : ℚ) : ℚ × ℚ :=
  ((clientX - r.left) * (canvasW / r.width),
   (clientY - r.top) * (canvasH / r.height))

/-- The slice of the client React state the verified updates touch: the
current generated image and the history list. -/
structure AppState where
  generatedImage : Option String
  history : List String
  deriving DecidableEq

/-- Embeds the history update inside `handleApiResponse`
(src/unnamed/part_000 line 106): `[imageUrl, ...prev].slice(0, 6)`. -/
def updateHistory (prev : List String) (url : String) : List String :=
  (url :: prev).take 6

/-- Embeds `handleApiResponse` (src/unnamed/part_000 lines 100-107): the
incoming base64 payload is wrapped in a data URL with the fixed
`data:image/jpeg;base64,` prefix, stored as the current generated image,
and prepended to the bounded history. -/
def handleApiResponse (st : AppState) (imageBase64 : String) : AppState :=
  { generatedImage := some ("data:image/jpeg;base64," ++ imageBase64),
    history := updateHistory st.history ("data:image/jpeg;base64," ++ imageBase64) }

/-- Outcome of submitting the generate action: a client-side rejection with
the error message shown, or a dispatch of the network call with the given
arguments. -/
inductive GenAction where
  | rejected (msg : String)
  | dispatched (prompt : String) (aspect : String)
  deriving DecidableEq

/-- Strips leading and trailing whitespace from a character list. -/
def trimChars (cs : List Char) : List Char :=
  ((cs.dropWhile Char.isWhitespace).reverse.dropWhile Char.isWhitespace).reverse

/-- Models the JavaScript call `s.trim()`: the string with leading and
trailing whitespace removed. -/
def strTrim (s : String) : String := String.mk (trimChars s.data)

/-- Embeds the validation gate of `handleGenerate` (src/unnamed/part_000
lines 235-252): a prompt that trims to the empty string (the JavaScript
test `!prompt.trim()`) is rejected with an error before `generateImage`
(and hence any HTTP request) is invoked; otherwise the call is dispatched
with the prompt and aspect ratio. -/
def handleGenerate (prompt aspect : String) : GenAction :=
  if strTrim prompt = "" then GenAction.rejected "Please enter a prompt."
  else GenAction.dispatched prompt aspect

/-- The parse outcome of a non-2xx response body in `fetchApi`
(src/services/geminiService.ts lines 14-17): JSON with an error field,
JSON without one (the field reads as `undefined`), or an unparseable body
(the `.catch` substitute object). -/
inductive BodyParse where
  | errField (e : String)
  | noField
  | unparseable
  deriving DecidableEq

/-- Embeds the error message thrown by `fetchApi` for a non-2xx response
(src/services/geminiService.ts lines 14-17): the error field when truthy,
else the status fallback; an unparseable body is replaced by the fixed
unknown-error object whose error field is then thrown. -/
def fetchApiErrorMessage (status : Nat) (b : BodyParse) : String :=
  match b with
  | BodyParse.errField e =>
      if e != "" then e else "Request failed with status " ++ toString status
  | BodyParse.noField => "Request failed with status " ++ toString status
  | BodyParse.unparseable => "An unknown error occurred."

/-- Word-character test of the regular expression class `\w`. -/
def isWordChar (c : Char) : Bool := c.isAlphanum || c == '_'

/-- Core of the regular-expression match in `handleReEdit`
(src/unnamed/part_000 line 339), modelled at match position zero (every
stored generated-image URL starts with the data-URL header, so the leftmost
match of the unanchored regex is at position zero): the pattern
`data:(image\/\w+);base64,` captures the MIME group when the list starts
with `data:image/`, one or more word characters, then `;base64,`. -/
def dataUrlMimeCore (cs : List Char) : Option String :=
  if charListPre "data:image/".data cs then
    let w := (cs.drop 11).takeWhile isWordChar
    if w.length != 0 && charListPre ";base64,".data ((cs.drop 11).drop w.length) then
      some ("image/" ++ String.mk w)
    else none
  else none

/-- The regex match of `handleReEdit` applied to a data URL string. -/
def dataUrlMimeMatch (s : String) : Option String := dataUrlMimeCore s.data

/-- Embeds the MIME derivation of `handleReEdit` (src/unnamed/part_000
lines 339-340): the captured group of the match, or the `image/jpeg`
fallback when there is no match. -/
def reEditMimeType (dataUrl : String) : String :=
  match dataUrlMimeMatch dataUrl with
  | some m => m
  | none => "image/jpeg"

/-! ## Helper lemmas -/

/-- A fresh canvas satisfies the binary-buffer invariant. -/
lemma binaryBuf_init (w h : Nat) : binaryBuf (initCanvas w h) := by
  intro p hp
  exact Or.inl (List.eq_of_mem_replicate hp)

/-- Painting a covered index set preserves the binary-buffer invariant. -/
lemma binaryBuf_paint (cover : List Nat) (buf : List Pixel)
    (h : ∀ p ∈ buf, p = transparentPx ∨ p = opaqueBlack) :
    ∀ p ∈ cover.foldl (fun b i => b.set i opaqueBlack) buf,
      p = transparentPx ∨ p = opaqueBlack := by
  induction cover generalizing buf with
  | nil => exact h
  | cons i is ih =>
    intro p hp
    refine ih _ ?_ p hp
    intro q hq
    rcases List.mem_or_eq_of_mem_set hq with h2 | h2
    · exact h q h2
    · exact Or.inr h2

/-- Every single mask operation preserves the binary-buffer invariant. -/
lemma binaryBuf_applyOp (c : MaskCanvas) (op : MaskOp) (h : binaryBuf c) :
    binaryBuf (applyOp c op) := by
  cases op with
  | draw cover => exact binaryBuf_paint cover c.buffer h
  | clear =>
    intro p hp
    simp only [applyOp, clearMask, List.mem_map] at hp
    obtain ⟨q, _, rfl⟩ := hp
    exact Or.inl rfl

/-- Every sequence of mask operations preserves the binary-buffer
invariant. -/
lemma binaryBuf_applyOps (c : MaskCanvas) (ops : List MaskOp) (h : binaryBuf c) :
    binaryBuf (applyOps c ops) := by
  induction ops generalizing c with
  | nil => exact h
  | cons op ops ih => exact ih _ (binaryBuf_applyOp c op h)

/-- Mask operations never change the canvas width. -/
lemma width_applyOps (c : MaskCanvas) (ops : List MaskOp) :
    (applyOps c ops).width = c.width := by
  induction ops generalizing c with
  | nil => rfl
  | cons op ops ih =>
    have h1 : (applyOp c op).width = c.width := by cases op <;> rfl
    calc (applyOps c (op :: ops)).width
        = (applyOps (applyOp c op) ops).width := rfl
      _ = (applyOp c op).width := ih _
      _ = c.width := h1

/-- Mask operations never change the canvas height. -/
lemma height_applyOps (c : MaskCanvas) (ops : List MaskOp) :
    (applyOps c ops).height = c.height := by
  induction ops generalizing c with
  | nil => rfl
  | cons op ops ih =>
    have h1 : (applyOp c op).height = c.height := by cases op <;> rfl
    calc (applyOps c (op :: ops)).height
        = (applyOps (applyOp c op) ops).height := rfl
      _ = (applyOp c op).height := ih _
      _ = c.height := h1

/-- Compositing a binary pixel over the white background yields white for a
transparent pixel and the stroke color for a painted one. -/
lemma sourceOver_white (p : Pixel) (h : p = transparentPx ∨ p = opaqueBlack) :
    sourceOver p whitePx = if p.a = 0 then whitePx else opaqueBlack := by
  rcases h with rfl | rfl <;> decide

/-- A canvas whose pixel words are all zero exports no mask. -/
lemma getMask_of_allZero (c : MaskCanvas) (h : ∀ p ∈ c.buffer, pixelWord p = 0) :
    getMaskAsBase64 c = none := by
  have hempty : isCanvasEmpty c = true := by
    simp only [isCanvasEmpty, Bool.not_eq_true']
    simp only [List.any_eq_false]
    intro p hp
    simp [h p hp]
  simp [getMaskAsBase64, hempty]

/-- The message synthesized for a text-only model reply always starts with
the generation-failed marker checked in `handleApiErrorResponse`. -/
lemma strStarts_genFailed (t : String) :
    strStarts ("Image generation failed: " ++ t) "Image generation failed:" = true := by
  unfold strStarts
  rw [String.data_append]
  rfl

/-- The pointer position at relative offsets tx, ty of the displayed
rectangle maps to the raster point (tx * width, ty * height), independently
of the rectangle. -/
lemma getCanvasCoords_rel (canvasW canvasH tx ty : ℚ) (r : DomRect)
    (hw : r.width ≠ 0) (hh : r.height ≠ 0) :
    getCanvasCoords canvasW canvasH r (r.left + tx * r.width) (r.top + ty * r.height) =
      (tx * canvasW, ty * canvasH) := by
  unfold getCanvasCoords
  congr 1
  · field_simp
    ring
  · field_simp
    ring

/-- The regex capture on a string with the JPEG data-URL header yields the
JPEG MIME type, whatever follows the header. -/
lemma dataUrlMimeCore_jpeg (tail : List Char) :
    dataUrlMimeCore ("data:image/jpeg;base64,".data ++ tail) = some "image/jpeg" := rfl

/-! ## Claim theorems -/

/-- C1: for every edit request whose body contains a non-empty
maskBase64Data, the payload sent to the external model contains exactly
three parts in order: an inline-image part with the original image MIME
type, an inline mask part whose MIME type is image/png regardless of the
original MIME type, and one text instruction that embeds the user prompt
verbatim (it is the fixed prefix, then the prompt, then a closing quote)
and tells the model to edit only the BLACK regions of the mask and leave
the white regions unchanged. -/
theorem c1_masked_edit_payload (prompt img mime mask : String) (hm : mask ≠ "") :
    buildEditParts prompt img mime (some mask) =
      [Part.inlineData img mime,
       Part.inlineData mask "image/png",
       Part.text (maskInstrPre ++ prompt ++ "\"")] ∧
    strIncludes maskInstrPre "apply the following edit only to the BLACK areas" = true ∧
    strIncludes maskInstrPre "leaving the white areas unchanged" = true := by
  have hm' : (mask != "") = true := by simpa using hm
  refine ⟨?_, by decide, by decide⟩
  simp [buildEditParts, maskedEditInstruction, hm']

/-- Witness for C1 at a concrete masked edit request. -/
theorem c1_witness :
    buildEditParts "add a red hat" "IMGDATA" "image/jpeg" (some "MASKDATA") =
      [Part.inlineData "IMGDATA" "image/jpeg",
       Part.inlineData "MASKDATA" "image/png",
       Part.text (maskInstrPre ++ "add a red hat" ++ "\"")] ∧
    strIncludes maskInstrPre "apply the following edit only to the BLACK areas" = true ∧
    strIncludes maskInstrPre "leaving the white areas unchanged" = true :=
  c1_masked_edit_payload "add a red hat" "IMGDATA" "image/jpeg" "MASKDATA" (by decide)

/-- C2 counterexample: the claim as stated fails.  When the model returns
no image and the reply text is "429", the backend responds 429 (not 400)
with the rate-limit message, which does not include the reply text.  Also,
when neither image nor text is present, the 500 body carries the generic
message, which does not mention missing image data. -/
theorem c2_counterexample :
    editEndpointRespond [] (some "429") =
      EditOutcome.err 429 "API rate limit exceeded. Please try again later." ∧
    editEndpointRespond [] (some "429") ≠
      EditOutcome.err 400 "Image generation failed: 429" ∧
    strIncludes "API rate limit exceeded. Please try again later." "429" = false ∧
    editEndpointRespond [] none =
      EditOutcome.err 500 "Failed to process request due to an API error." ∧
    strIncludes "Failed to process request due to an API error." "no image data" = false := by
  refine ⟨by decide, by decide, by decide, by decide, by decide⟩

/-- C2 amended: when the external model response carries no truthy inline
image datum but a non-empty reply text, and the synthesized message
`Image generation failed: <text>` contains neither the API-key marker nor
`429` (those are claimed first by the 401 and 429 classifications), the
backend responds 400 with that synthesized message, which embeds the reply
text; when the response carries neither image nor text, the backend
responds 500 with the generic failure message. -/
theorem c2_text_reply_maps_to_400 (parts : List RespPart) (t : String)
    (himg : jsTruthy (imagePartData parts) = false)
    (ht : t ≠ "")
    (hk : strIncludes ("Image generation failed: " ++ t) "API key not valid" = false)
    (hr : strIncludes ("Image generation failed: " ++ t) "429" = false) :
    editEndpointRespond parts (some t) =
      EditOutcome.err 400 ("Image generation failed: " ++ t) ∧
    editEndpointRespond parts none =
      EditOutcome.err 500 "Failed to process request due to an API error." := by
  have htruthy : jsTruthy (some t) = true := by simpa [jsTruthy] using ht
  constructor
  · unfold editEndpointRespond
    rw [himg, htruthy]
    simp only [if_true, if_false, Bool.false_eq_true, ite_true, ite_false]
    unfold handleApiErrorResponse
    rw [show (some t).getD "" = t from rfl, hk, hr, strStarts_genFailed]
    simp
  · unfold editEndpointRespond
    rw [himg]
    rfl

/-- Witness for C2 at a concrete refusal text. -/
theorem c2_witness :
    editEndpointRespond [] (some "The request was blocked.") =
      EditOutcome.err 400 ("Image generation failed: " ++ "The request was blocked.") ∧
    editEndpointRespond [] none =
      EditOutcome.err 500 "Failed to process request due to an API error." :=
  c2_text_reply_maps_to_400 [] "The request was blocked." (by decide) (by decide)
    (by decide) (by decide)

/-- C3: every mask-layer state whose pixel words are all zero exports no
mask; in particular a freshly allocated canvas exports none, and after any
stroke sequence followed by clear the export is none. -/
theorem c3_all_transparent_export_absent (c : MaskCanvas) (w h : Nat) (ops : List MaskOp)
    (hall : ∀ p ∈ c.buffer, pixelWord p = 0) :
    getMaskAsBase64 c = none ∧
    getMaskAsBase64 (initCanvas w h) = none ∧
    getMaskAsBase64 (applyOps (initCanvas w h) (ops ++ [MaskOp.clear])) = none := by
  refine ⟨getMask_of_allZero c hall, ?_, ?_⟩
  · refine getMask_of_allZero _ ?_
    intro p hp
    rw [List.eq_of_mem_replicate hp]
    rfl
  · refine getMask_of_allZero _ ?_
    intro p hp
    have hsplit : applyOps (initCanvas w h) (ops ++ [MaskOp.clear]) =
        applyOp (applyOps (initCanvas w h) ops) MaskOp.clear := by
      unfold applyOps
      rw [List.foldl_append]
      rfl
    rw [hsplit] at hp
    simp only [applyOp, clearMask, List.mem_map] at hp
    obtain ⟨q, _, rfl⟩ := hp
    rfl

/-- Witness for C3 at a concrete transparent canvas and stroke list. -/
theorem c3_witness :
    getMaskAsBase64 { width := 1, height := 1, buffer := [transparentPx] } = none ∧
    getMaskAsBase64 (initCanvas 1 1) = none ∧
    getMaskAsBase64 (applyOps (initCanvas 1 1) ([MaskOp.draw [0]] ++ [MaskOp.clear])) = none :=
  c3_all_transparent_export_absent
    { width := 1, height := 1, buffer := [transparentPx] } 1 1 [MaskOp.draw [0]] (by decide)

/-- C4: for every stroke sequence leaving at least one painted pixel, the
export yields a composite whose dimensions equal the natural dimensions the
canvas was allocated with, whose pixel at each position is white where the
mask layer is transparent and the stroke color where it is painted, and all
of whose pixels are pure opaque white or the opaque stroke color. -/
theorem c4_nonempty_export_binary (w h : Nat) (ops : List MaskOp)
    (hne : isCanvasEmpty (applyOps (initCanvas w h) ops) = false) :
    ∃ e : MaskExport,
      getMaskAsBase64 (applyOps (initCanvas w h) ops) = some e ∧
      e.width = w ∧ e.height = h ∧
      e.pixels = (applyOps (initCanvas w h) ops).buffer.map
        (fun p => if p.a = 0 then whitePx else opaqueBlack) ∧
      ∀ p ∈ e.pixels, p = whitePx ∨ p = opaqueBlack := by
  have hbin : binaryBuf (applyOps (initCanvas w h) ops) :=
    binaryBuf_applyOps _ ops (binaryBuf_init w h)
  have hmap : (applyOps (initCanvas w h) ops).buffer.map (fun p => sourceOver p whitePx) =
      (applyOps (initCanvas w h) ops).buffer.map
        (fun p => if p.a = 0 then whitePx else opaqueBlack) :=
    List.map_congr_left (fun p hp => sourceOver_white p (hbin p hp))
  refine ⟨{ width := (applyOps (initCanvas w h) ops).width,
            height := (applyOps (initCanvas w h) ops).height,
            pixels := (applyOps (initCanvas w h) ops).buffer.map
              (fun p => sourceOver p whitePx) }, ?_, ?_, ?_, hmap, ?_⟩
  · unfold getMaskAsBase64
    rw [hne]
    rfl
  · exact (width_applyOps _ ops).trans rfl
  · exact (height_applyOps _ ops).trans rfl
  · intro p hp
    rw [hmap] at hp
    simp only [List.mem_map] at hp
    obtain ⟨q, _, rfl⟩ := hp
    by_cases hqa : q.a = 0
    · simp [hqa]
    · simp [hqa]

/-- Witness for C4 at a concrete one-pixel stroke. -/
theorem c4_witness :
    ∃ e : MaskExport,
      getMaskAsBase64 (applyOps (initCanvas 1 1) [MaskOp.draw [0]]) = some e ∧
      e.width = 1 ∧ e.height = 1 ∧
      e.pixels = (applyOps (initCanvas 1 1) [MaskOp.draw [0]]).buffer.map
        (fun p => if p.a = 0 then whitePx else opaqueBlack) ∧
      ∀ p ∈ e.pixels, p = whitePx ∨ p = opaqueBlack :=
  c4_nonempty_export_binary 1 1 [MaskOp.draw [0]] (by decide)

/-- C5: an edit call with the mask argument absent serializes a request
body with no maskBase64Data field, and the backend payload built from that
absent mask is exactly the inline image part followed by the plain prompt
text part. -/
theorem c5_no_mask_edit (prompt img mime : String) :
    (serializedFields (editImageBody prompt img mime none)).lookup "maskBase64Data" = none ∧
    buildEditParts prompt img mime
        ((serializedFields (editImageBody prompt img mime none)).lookup "maskBase64Data") =
      [Part.inlineData img mime, Part.text prompt] :=
  ⟨rfl, rfl⟩

/-- C6: the updated history is the new data URL prepended to the previous
entries and truncated to six, so its length never exceeds six, its head is
the newest entry, and when the previous history already held six entries
the oldest (last) one is evicted. -/
theorem c6_history_bounded (prev : List String) (url : String) :
    updateHistory prev url = (url :: prev).take 6 ∧
    (updateHistory prev url).length ≤ 6 ∧
    (updateHistory prev url).head? = some url ∧
    (prev.length = 6 → updateHistory prev url = url :: prev.dropLast) := by
  refine ⟨rfl, ?_, rfl, ?_⟩
  · unfold updateHistory
    rw [List.length_take]
    exact Nat.min_le_left _ _
  · intro h6
    rw [List.dropLast_eq_take, h6]
    rfl

/-- Witness for C6: a seventh submission on a six-entry history evicts the
oldest entry. -/
theorem c6_witness :
    updateHistory ["a", "b", "c", "d", "e", "f"] "g" =
      "g" :: ["a", "b", "c", "d", "e", "f"].dropLast :=
  (c6_history_bounded ["a", "b", "c", "d", "e", "f"] "g").2.2.2 (by decide)

/-- C7: a prompt that trims to the empty string (empty or whitespace-only)
is rejected client-side with the validation error, and the generate call is
never dispatched, so no HTTP request is issued. -/
theorem c7_empty_prompt_rejected (prompt aspect : String)
    (h : strTrim prompt = "") :
    handleGenerate prompt aspect = GenAction.rejected "Please enter a prompt." ∧
    ∀ p a, handleGenerate prompt aspect ≠ GenAction.dispatched p a := by
  have h1 : handleGenerate prompt aspect = GenAction.rejected "Please enter a prompt." := by
    simp [handleGenerate, h]
  refine ⟨h1, fun p a hc => ?_⟩
  rw [h1] at hc
  exact GenAction.noConfusion hc

/-- Witness for C7 at a whitespace-only prompt. -/
theorem c7_witness :
    handleGenerate " \t  " "1:1" = GenAction.rejected "Please enter a prompt." ∧
    ∀ p a, handleGenerate " \t  " "1:1" ≠ GenAction.dispatched p a :=
  c7_empty_prompt_rejected " \t  " "1:1" (by decide)

/-- C8 counterexample: the claim as stated fails when the error field is
present but empty.  The body carries an error field (the empty string), yet
the thrown message is the status fallback, not the literal field text. -/
theorem c8_counterexample :
    fetchApiErrorMessage 401 (BodyParse.errField "") = "Request failed with status 401" ∧
    fetchApiErrorMessage 401 (BodyParse.errField "") ≠ "" := by
  refine ⟨by decide, by decide⟩

/-- C8 amended: for every non-2xx backend response whose JSON body carries
a non-empty error field, the transport layer throws an error whose message
is exactly that field text (an empty field falls back to the status
message); an unparseable body falls back to the fixed unknown-error
message.  In particular an upstream invalid-API-key failure is classified
to status 401 with the literal message, and that literal message is what
the transport layer then throws. -/
theorem c8_error_message_propagation (status : Nat) (e upMsg : String)
    (he : e ≠ "")
    (hk : strIncludes upMsg "API key not valid" = true) :
    fetchApiErrorMessage status (BodyParse.errField e) = e ∧
    fetchApiErrorMessage status BodyParse.unparseable = "An unknown error occurred." ∧
    handleApiErrorResponse upMsg = (401, "The provided API key is not valid.") ∧
    fetchApiErrorMessage 401 (BodyParse.errField (handleApiErrorResponse upMsg).2) =
      "The provided API key is not valid." := by
  have he' : (e != "") = true := by simpa using he
  have h3 : handleApiErrorResponse upMsg = (401, "The provided API key is not valid.") := by
    simp [handleApiErrorResponse, hk]
  refine ⟨by simp [fetchApiErrorMessage, he'], rfl, h3, ?_⟩
  rw [h3]
  rfl

/-- Witness for C8 at the invalid-API-key error. -/
theorem c8_witness :
    fetchApiErrorMessage 401 (BodyParse.errField "The provided API key is not valid.") =
      "The provided API key is not valid." ∧
    fetchApiErrorMessage 401 BodyParse.unparseable = "An unknown error occurred." ∧
    handleApiErrorResponse "API key not valid. Check your key." =
      (401, "The provided API key is not valid.") ∧
    fetchApiErrorMessage 401
        (BodyParse.errField (handleApiErrorResponse "API key not valid. Check your key.").2) =
      "The provided API key is not valid." :=
  c8_error_message_propagation 401 "The provided API key is not valid."
    "API key not valid. Check your key." (by decide) (by decide)

/-- C9: coordinate mapping is scale-invariant.  For a fixed backing raster
resolution, the pointer position at relative offsets tx, ty of the
displayed rectangle maps to the same raster point for every display
rectangle, namely (tx * width, ty * height), because each axis is scaled by
the ratio of the backing size to the displayed size. -/
theorem c9_scale_invariant (canvasW canvasH tx ty : ℚ) (ra rb : DomRect)
    (haw : ra.width ≠ 0) (hah : ra.height ≠ 0)
    (hbw : rb.width ≠ 0) (hbh : rb.height ≠ 0) :
    getCanvasCoords canvasW canvasH ra (ra.left + tx * ra.width) (ra.top + ty * ra.height) =
      getCanvasCoords canvasW canvasH rb (rb.left + tx * rb.width) (rb.top + ty * rb.height) ∧
    getCanvasCoords canvasW canvasH ra (ra.left + tx * ra.width) (ra.top + ty * ra.height) =
      (tx * canvasW, ty * canvasH) := by
  have h1 := getCanvasCoords_rel canvasW canvasH tx ty ra haw hah
  have h2 := getCanvasCoords_rel canvasW canvasH tx ty rb hbw hbh
  exact ⟨h1.trans h2.symm, h1⟩

/-- Witness for C9: the midpoint at one-quarter height maps to the same
raster point under two different display rectangles. -/
theorem c9_witness :
    getCanvasCoords 64 32 { left := 0, top := 0, width := 128, height := 64 }
        (0 + (1 / 2) * 128) (0 + (1 / 4) * 64) =
      getCanvasCoords 64 32 { left := 10, top := 20, width := 256, height := 128 }
        (10 + (1 / 2) * 256) (20 + (1 / 4) * 128) ∧
    getCanvasCoords 64 32 { left := 0, top := 0, width := 128, height := 64 }
        (0 + (1 / 2) * 128) (0 + (1 / 4) * 64) = ((1 / 2) * 64, (1 / 4) * 32) :=
  c9_scale_invariant 64 32 (1 / 2) (1 / 4)
    { left := 0, top := 0, width := 128, height := 64 }
    { left := 10, top := 20, width := 256, height := 128 }
    (by norm_num) (by norm_num) (by norm_num) (by norm_num)

/-- C10: every successful generation or edit result is stored, both as the
current generated image and as the new history head, as a data URL with the
fixed `data:image/jpeg;base64,` prefix regardless of the payload, and the
re-edit MIME derivation on such a URL always yields image/jpeg. -/
theorem c10_stored_as_jpeg (st : AppState) (imgB64 : String) :
    (handleApiResponse st imgB64).generatedImage =
      some ("data:image/jpeg;base64," ++ imgB64) ∧
    (handleApiResponse st imgB64).history.head? =
      some ("data:image/jpeg;base64," ++ imgB64) ∧
    reEditMimeType ("data:image/jpeg;base64," ++ imgB64) = "image/jpeg" := by
  refine ⟨rfl, rfl, ?_⟩
  have hm : dataUrlMimeMatch ("data:image/jpeg;base64," ++ imgB64) = some "image/jpeg" := by
    unfold dataUrlMimeMatch
    rw [String.data_append]
    exact dataUrlMimeCore_jpeg imgB64.data
  simp [reEditMimeType, hm]

end TANI
